import Mathlib

/-!
Verification of the CRA Mobile API alert core.

Shallow embedding of the repository's alert lifecycle:
  * `database/db.py` — the Alert Store (`critical_alerts` table, `security_log`
    table) and the Statistics Engine;
  * `utils/notifications.py` — the notification fan-out pipeline;
  * `api/routes.py` — the create-alert and close-alert request handlers.

Modeling conventions:
  * Timestamps in the store are `%Y-%m-%d %H:%M:%S` strings whose lexicographic
    order coincides with chronological order; we model an instant as an `Int`
    number of minutes, so SQL `ORDER BY timestamp DESC` becomes sorting by
    `Int` descending and the `julianday` difference `* 24 * 60` becomes plain
    integer subtraction.
  * Every store operation in `db.py` wraps its body in `try/except` and returns
    a benign value from the `except` arm; we model the possibility of a storage
    exception with an explicit `fault : Bool` argument whose `true` branch is
    the `except` arm.  SQLite commits are atomic, so a faulted call leaves the
    store unchanged.
  * External transports (FCM push, Twilio WhatsApp) are modeled as outcome
    fields of a `NotifyEnv` environment: configuration truthiness plus a
    success/failure verdict for each attempted network call.
-/

namespace CraApi

/-- One row of the `critical_alerts` table (`db.py`).  `shown = false` means
pending, `shown = true` means closed; `closed_by`/`closed_at` are NULL until a
close transition writes them. -/
structure Alert where
  id : Nat
  file_number : String
  test_name : String
  value : String
  timestamp : Int
  shown : Bool
  closed_by : Option String
  closed_at : Option Int
  deriving DecidableEq

/-- One row of the `security_log` table (`db.py`, `log_security_event`). -/
structure SecEvent where
  event_type : String
  user_id : String
  timestamp : Int
  details : String
  deriving DecidableEq

/-- The persistent state owned by the Alert Store: both tables plus the next
SQLite rowid for `critical_alerts` (`cursor.lastrowid` is 1 on the first
insert and increases by one per insert). -/
structure Store where
  alerts : List Alert
  nextId : Nat
  securityLog : List SecEvent
  deriving DecidableEq

/-- The empty database, as created on first startup. -/
def Store.empty : Store := ⟨[], 1, []⟩

/-! ### Alert Store operations (`database/db.py`) -/

/-- `get_pending_alerts()` (db.py:24): `SELECT * FROM critical_alerts WHERE
shown = 0`, in storage order; `[]` from the `except` arm on a storage fault. -/
def get_pending_alerts (db : Store) (fault : Bool) : List Alert :=
  if fault then []
  else db.alerts.filter (fun a => !a.shown)

/-- The row filter of `get_alerts` (db.py:68): when `show_closed` is false the
queries append `WHERE shown = 0`. -/
def alertFilter (showClosed : Bool) (a : Alert) : Bool :=
  showClosed || !a.shown

/-- SQL `ORDER BY timestamp DESC` as a relation: `a` precedes `b` when its
timestamp is at least `b`'s. -/
def tsGe (a b : Alert) : Prop := b.timestamp ≤ a.timestamp

instance : DecidableRel tsGe := fun a b =>
  inferInstanceAs (Decidable (b.timestamp ≤ a.timestamp))

instance : IsTotal Alert tsGe := ⟨fun a b => le_total b.timestamp a.timestamp⟩

instance : IsTrans Alert tsGe := ⟨fun _ _ _ h1 h2 => le_trans h2 h1⟩

/-- `get_alerts(page, per_page, show_closed)` (db.py:48): counts the filtered
rows, then returns the filtered rows ordered by `timestamp DESC` with
`LIMIT per_page OFFSET (page-1)*per_page`; `([], 0)` from the `except` arm. -/
def get_alerts (db : Store) (page perPage : Nat) (showClosed : Bool)
    (fault : Bool) : List Alert × Nat :=
  if fault then ([], 0)
  else
    let rows := db.alerts.filter (alertFilter showClosed)
    let sorted := List.insertionSort tsGe rows
    ((sorted.drop ((page - 1) * perPage)).take perPage, rows.length)

/-- `add_alert(file_number, test_name, value)` (db.py:93): inserts a row with
`shown = 0` and NULL `closed_by`/`closed_at`, returning the generated id;
`None` from the `except` arm (the transaction never partly commits). -/
def add_alert (db : Store) (file_number test_name value : String) (now : Int)
    (fault : Bool) : Store × Option Nat :=
  if fault then (db, none)
  else
    ({ db with
        alerts := db.alerts ++
          [⟨db.nextId, file_number, test_name, value, now, false, none, none⟩]
        nextId := db.nextId + 1 },
      some db.nextId)

/-- The row effect of the `close_alert` UPDATE (db.py:143) on one alert: rows
matching `WHERE id = ?` get `shown = 1`, `closed_by = ?`, `closed_at = ?`;
every other row is untouched. -/
def closeUpdate (alert_id : Nat) (user_id : String) (now : Int)
    (a : Alert) : Alert :=
  if a.id = alert_id then
    { a with
        shown := true
        closed_by := some user_id
        closed_at := some now }
  else a

/-- `close_alert(alert_id, user_id)` (db.py:126): `UPDATE critical_alerts SET
shown = 1, closed_by = ?, closed_at = ? WHERE id = ?`, then returns `True`;
`False` from the `except` arm. -/
def close_alert (db : Store) (alert_id : Nat) (user_id : String) (now : Int)
    (fault : Bool) : Store × Bool :=
  if fault then (db, false)
  else
    ({ db with alerts := db.alerts.map (closeUpdate alert_id user_id now) },
      true)

/-- `log_security_event(event_type, user_id, details)` (db.py:222): appends a
row to `security_log` and returns `True`; `False` from the `except` arm. -/
def log_security_event (db : Store) (event_type user_id details : String)
    (now : Int) (fault : Bool) : Store × Bool :=
  if fault then (db, false)
  else
    ({ db with securityLog := db.securityLog ++ [⟨event_type, user_id, now, details⟩] },
      true)

/-! ### Statistics Engine (`db.py`, `get_alert_stats`) -/

/-- The result dictionary of `get_alert_stats` (db.py:205). -/
structure Stats where
  total_alerts : Nat
  closed_alerts : Nat
  pending_alerts : Nat
  avg_response_time_minutes : ℚ
  test_distribution : List (String × Nat)
  deriving DecidableEq

/-- The all-zero dictionary returned from the `except` arm (db.py:214). -/
def zeroStats : Stats := ⟨0, 0, 0, 0, []⟩

/-- The window predicate `datetime(timestamp) >= datetime('now', '-{days}
days')` (db.py:173).  A negative `days` produces the modifier string
`--{|days|} days`, which SQLite rejects: `datetime` yields NULL and the
comparison excludes every row. -/
def inWindow (now days : Int) (a : Alert) : Bool :=
  if days < 0 then false
  else decide (now - days * 1440 ≤ a.timestamp)

/-- Python's `round(x, 2)` applied to the average (db.py:209), on exact
rationals: round to the nearest hundredth. -/
def round2 (x : ℚ) : ℚ := (round (x * 100) : ℤ) / 100

/-- The rows of the `AVG` query (db.py:185): in the window, `shown = 1`, and
`closed_at IS NOT NULL`. -/
def qualifying (db : Store) (now days : Int) : List Alert :=
  (db.alerts.filter (inWindow now days)).filter
    (fun a => a.shown && a.closed_at.isSome)

/-- `(julianday(closed_at) - julianday(timestamp)) * 24 * 60` (db.py:186):
the response time of a closed alert in minutes. -/
def respMinutes (a : Alert) : ℚ :=
  match a.closed_at with
  | some t => ((t - a.timestamp : Int) : ℚ)
  | none => 0

/-- `GROUP BY test_name ORDER BY count DESC` (db.py:194): one entry per
distinct test name with its row count, sorted by count descending. -/
def testDistribution (l : List Alert) : List (String × Nat) :=
  List.insertionSort (fun p q : String × Nat => q.2 ≤ p.2)
    ((l.map (fun a => a.test_name)).dedup.map
      (fun n => (n, (l.filter (fun a => a.test_name == n)).length)))

/-- `get_alert_stats(days)` (db.py:156): window counts, the derived pending
count, the guarded average response time (`fetchone()[0] or 0`, then
`round(·, 2)`), and the per-test distribution; all zeros from the `except`
arm. -/
def get_alert_stats (db : Store) (now days : Int) (fault : Bool) : Stats :=
  if fault then zeroStats
  else
    let w := db.alerts.filter (inWindow now days)
    let total := w.length
    let closed := (w.filter (fun a => a.shown)).length
    let qual := qualifying db now days
    let avgRaw : ℚ :=
      if qual.length = 0 then 0
      else (qual.map respMinutes).sum / (qual.length : ℚ)
    { total_alerts := total
      closed_alerts := closed
      pending_alerts := total - closed
      avg_response_time_minutes := round2 avgRaw
      test_distribution := testDistribution w }

/-! ### Notification fan-out (`utils/notifications.py`) -/

/-- An entry of the `USERS` table (`auth/auth.py`), as read by the fan-out:
only `id` and `role` matter to it. -/
structure User where
  id : String
  role : String
  deriving DecidableEq

/-- The environment a fan-out run observes: the `USERS` list, the in-memory
`DEVICE_TOKENS` map, configuration truthiness, and the success verdict of each
external transport call (an exception inside a send is caught by that send's
`except` arm and becomes `false`). -/
structure NotifyEnv where
  users : List User
  device_tokens : List (String × String)
  fcm_api_key : Bool
  fcm_deliver : String → Bool
  twilio_configured : Bool
  twilio_deliver : Bool

/-- `send_fcm_notification(user_id, title, message, data)`
(notifications.py:13): fails when the user has no (or an empty) device token
or the FCM key is unconfigured, otherwise reports the transport outcome.  The
title/message/data payload never influences the returned success flag, so it
is not modeled. -/
def send_fcm_notification (env : NotifyEnv) (user_id : String) : Bool :=
  match env.device_tokens.lookup user_id with
  | none => false
  | some tok =>
    if tok = "" then false
    else if !env.fcm_api_key then false
    else env.fcm_deliver user_id

/-- `send_whatsapp_alert(patient_id, test_name, value)` (notifications.py:99):
fails when any of the four Twilio settings is unconfigured, otherwise reports
the transport outcome.  The message body never influences the success flag. -/
def send_whatsapp_alert (env : NotifyEnv)
    (patient_id test_name value : String) : Bool :=
  if !env.twilio_configured then false
  else env.twilio_deliver

/-- `notify_new_alert(alert_data)` (notifications.py:141): pushes to every
`receiver`-role user, then attempts the single WhatsApp send, and reports
whether any individual send succeeded. -/
def notify_new_alert (env : NotifyEnv) (alert : Alert) : Bool :=
  let receivers := (env.users.filter (fun u => u.role == "receiver")).map
    (fun u => u.id)
  let pushSent := receivers.foldl
    (fun acc rid => acc || send_fcm_notification env rid) false
  let whatsappSent :=
    send_whatsapp_alert env alert.file_number alert.test_name alert.value
  pushSent || whatsappSent

/-! ### Request handlers (`api/routes.py`) -/

/-- What the create-alert handler produced: the store it leaves behind, the
HTTP status, whether `notify_new_alert` was invoked on the request path before
the response, and (when invoked) its return value. -/
structure CreateResponse where
  store : Store
  status : Nat
  notified : Bool
  notify_result : Bool
  deriving DecidableEq

/-- `create_alert` (routes.py:99): role check, field validation, `add_alert`,
then a lookup of the new row via `get_alerts(1, 1, False)` and — only if the
lookup finds it — a synchronous `notify_new_alert` call, before the 201
response.  `afault`/`gfault` are the storage-fault flags of the `add_alert`
and `get_alerts` calls. -/
def create_alert (db : Store) (role : String)
    (file_number test_name value : String) (now : Int) (env : NotifyEnv)
    (afault gfault : Bool) : CreateResponse :=
  if ¬(role = "sender" ∨ role = "admin") then ⟨db, 403, false, false⟩
  else if file_number = "" ∨ test_name = "" ∨ value = "" then
    ⟨db, 400, false, false⟩
  else
    let db1 := (add_alert db file_number test_name value now afault).1
    match (add_alert db file_number test_name value now afault).2 with
    | none => ⟨db1, 500, false, false⟩
    | some alert_id =>
      if alert_id = 0 then ⟨db1, 500, false, false⟩
      else
        match (get_alerts db1 1 1 false gfault).1.find?
            (fun a => a.id == alert_id) with
        | some alert_data => ⟨db1, 201, true, notify_new_alert env alert_data⟩
        | none => ⟨db1, 201, false, false⟩

/-- `mark_alert_closed` (routes.py:136): closes and answers 200 on `True`,
500 on `False`. -/
def mark_alert_closed (db : Store) (alert_id : Nat) (user_id : String)
    (now : Int) (fault : Bool) : Store × Nat :=
  let r := close_alert db alert_id user_id now fault
  if r.2 then (r.1, 200) else (r.1, 500)

/-! ### Reachable store states -/

/-- One Alert Store transition: an `add_alert` or `close_alert` call with
arbitrary arguments, clock reading, and fault outcome. -/
inductive Step : Store → Store → Prop
  | add (s : Store) (file_number test_name value : String) (now : Int)
      (fault : Bool) :
      Step s (add_alert s file_number test_name value now fault).1
  | close (s : Store) (alert_id : Nat) (user_id : String) (now : Int)
      (fault : Bool) :
      Step s (close_alert s alert_id user_id now fault).1

/-- Stores reachable from the empty database by `add_alert`/`close_alert`
sequences. -/
inductive Reachable : Store → Prop
  | init : Reachable Store.empty
  | step {s s' : Store} : Reachable s → Step s s' → Reachable s'

/-- The per-alert shape invariant of §3 of the spec: `closed_by`/`closed_at`
are both null or both set, and `shown = true` exactly when both are set. -/
def AlertWf (a : Alert) : Prop :=
  (a.closed_by.isSome = true ↔ a.closed_at.isSome = true) ∧
    (a.shown = true ↔ (a.closed_by.isSome = true ∧ a.closed_at.isSome = true))

/-- Bookkeeping invariant carried through the induction: every alert is
well-formed, ids stay below `nextId`, and ids are pairwise distinct. -/
def StoreWf (s : Store) : Prop :=
  (∀ a ∈ s.alerts, AlertWf a) ∧
    (∀ a ∈ s.alerts, a.id < s.nextId) ∧
    (s.alerts.map (fun a => a.id)).Nodup

/-! ### Concrete fixtures for witnesses and counterexamples -/

/-- A one-row store whose alert is already closed (id 1, closed by `u1`). -/
def closeWitnessDb : Store :=
  ⟨[⟨1, "F100", "Potassium", "7.2", 0, true, some "u1", some 5⟩], 2, []⟩

/-- A three-row store: pending alerts at times 10 and 30, a closed alert at
time 20. -/
def pageWitnessDb : Store :=
  ⟨[⟨1, "F1", "K", "4.1", 10, false, none, none⟩,
    ⟨2, "F2", "K", "4.2", 20, true, some "u", some 25⟩,
    ⟨3, "F3", "K", "4.3", 30, false, none, none⟩], 4, []⟩

/-- A fan-out environment with no receivers registered and both channels
unconfigured: every send fails. -/
def notifyCexEnv : NotifyEnv := ⟨[], [], false, fun _ => false, false, false⟩

/-- A store holding one pending alert whose timestamp 200 lies in the future
of the request clock used in the C6 counterexample. -/
def createCexDb : Store :=
  ⟨[⟨1, "F1", "T1", "V1", 200, false, none, none⟩], 2, []⟩

/-- Three closed alerts, all in any nonnegative window around time 0, with
response times 0, 0 and 1 minute: the mean response time is 1/3 minute. -/
def avgCexDb : Store :=
  ⟨[⟨1, "F1", "K", "9", 0, true, some "u", some 0⟩,
    ⟨2, "F2", "K", "9", 0, true, some "u", some 0⟩,
    ⟨3, "F3", "K", "9", 0, true, some "u", some 1⟩], 4, []⟩

/-! ### Helper lemmas -/

/-- The fan-out loop `for receiver_id in receivers: ... if fcm_sent:
notification_sent = True` is an or-fold. -/
theorem foldl_or_eq {α : Type} (f : α → Bool) (b : Bool) (l : List α) :
    l.foldl (fun acc x => acc || f x) b = (b || l.any f) := by
  induction l generalizing b with
  | nil => simp
  | cons x t ih => simp [List.foldl_cons, ih, Bool.or_assoc]

theorem closeUpdate_id (alert_id : Nat) (user_id : String) (now : Int)
    (a : Alert) : (closeUpdate alert_id user_id now a).id = a.id := by
  unfold closeUpdate
  split <;> rfl

theorem step_preserves_wf {s s' : Store} (hs : StoreWf s) (hstep : Step s s') :
    StoreWf s' := by
  obtain ⟨hwf, hlt, hnd⟩ := hs
  cases hstep with
  | add fn tn v now fault =>
    cases fault with
    | true => exact ⟨hwf, hlt, hnd⟩
    | false =>
      refine ⟨?_, ?_, ?_⟩
      · intro a ha
        have ha' : a ∈ s.alerts ++
            [⟨s.nextId, fn, tn, v, now, false, none, none⟩] := ha
        rcases List.mem_append.mp ha' with h1 | h1
        · exact hwf a h1
        · rw [List.mem_singleton] at h1
          subst h1
          exact ⟨by simp, by simp⟩
      · intro a ha
        have ha' : a ∈ s.alerts ++
            [⟨s.nextId, fn, tn, v, now, false, none, none⟩] := ha
        show a.id < s.nextId + 1
        rcases List.mem_append.mp ha' with h1 | h1
        · exact Nat.lt_succ_of_lt (hlt a h1)
        · rw [List.mem_singleton] at h1
          subst h1
          exact Nat.lt_succ_self _
      · show ((s.alerts ++
            [(⟨s.nextId, fn, tn, v, now, false, none, none⟩ : Alert)]).map
              (fun a => a.id)).Nodup
        rw [List.map_append, List.map_cons, List.map_nil, List.nodup_append]
        refine ⟨hnd, List.nodup_singleton _, ?_⟩
        intro x hx hx'
        rw [List.mem_singleton] at hx'
        subst hx'
        obtain ⟨a, ha, hxa⟩ := List.mem_map.mp hx
        exact absurd hxa (Nat.ne_of_lt (hlt a ha))
  | close aid uid now fault =>
    cases fault with
    | true => exact ⟨hwf, hlt, hnd⟩
    | false =>
      refine ⟨?_, ?_, ?_⟩
      · intro a ha
        have ha' : a ∈ s.alerts.map (closeUpdate aid uid now) := ha
        obtain ⟨b, hb, rfl⟩ := List.mem_map.mp ha'
        unfold closeUpdate
        split
        · exact ⟨by simp, by simp⟩
        · exact hwf b hb
      · intro a ha
        have ha' : a ∈ s.alerts.map (closeUpdate aid uid now) := ha
        obtain ⟨b, hb, rfl⟩ := List.mem_map.mp ha'
        show (closeUpdate aid uid now b).id < s.nextId
        rw [closeUpdate_id]
        exact hlt b hb
      · show ((s.alerts.map (closeUpdate aid uid now)).map
          (fun a => a.id)).Nodup
        rw [List.map_map]
        have heq : ((fun a : Alert => a.id) ∘ closeUpdate aid uid now) =
            fun a : Alert => a.id := by
          funext b
          simp [Function.comp, closeUpdate_id]
        rw [heq]
        exact hnd

theorem reachable_wf {s : Store} (h : Reachable s) : StoreWf s := by
  induction h with
  | init => refine ⟨?_, ?_, ?_⟩ <;> simp [Store.empty]
  | step _ hstep ih => exact step_preserves_wf ih hstep

theorem step_shown_monotone {s s' : Store} (hs : StoreWf s) (hstep : Step s s')
    {a a' : Alert} (ha : a ∈ s.alerts) (ha' : a' ∈ s'.alerts)
    (hid : a'.id = a.id) (hshown : a.shown = true) : a'.shown = true := by
  obtain ⟨-, hlt, hnd⟩ := hs
  have hinj := List.inj_on_of_nodup_map hnd
  cases hstep with
  | add fn tn v now fault =>
    cases fault with
    | true =>
      have h1 : a' ∈ s.alerts := ha'
      rw [hinj h1 ha hid]
      exact hshown
    | false =>
      have h0 : a' ∈ s.alerts ++
          [⟨s.nextId, fn, tn, v, now, false, none, none⟩] := ha'
      rcases List.mem_append.mp h0 with h1 | h1
      · rw [hinj h1 ha hid]
        exact hshown
      · rw [List.mem_singleton] at h1
        subst h1
        have h2 : s.nextId = a.id := hid
        exact absurd h2 (Ne.symm (Nat.ne_of_lt (hlt a ha)))
  | close aid uid now fault =>
    cases fault with
    | true =>
      have h1 : a' ∈ s.alerts := ha'
      rw [hinj h1 ha hid]
      exact hshown
    | false =>
      have h0 : a' ∈ s.alerts.map (closeUpdate aid uid now) := ha'
      obtain ⟨b, hb, rfl⟩ := List.mem_map.mp h0
      rw [closeUpdate_id] at hid
      have hba : b = a := hinj hb ha hid
      subst hba
      unfold closeUpdate
      split
      · rfl
      · exact hshown

/-! ### Claim theorems -/

/-- Claim C1: `notify_new_alert(alert)` returns true exactly when at least one
individual send attempt — a per-receiver push send or the single WhatsApp
send — succeeded, and false when all attempted sends failed or none were
attempted. -/
theorem notify_new_alert_or_reduction (env : NotifyEnv) (alert : Alert) :
    notify_new_alert env alert = true ↔
      ((∃ u ∈ env.users, u.role = "receiver" ∧
          send_fcm_notification env u.id = true) ∨
        send_whatsapp_alert env alert.file_number alert.test_name alert.value
          = true) := by
  simp only [notify_new_alert, foldl_or_eq, Bool.false_or, Bool.or_eq_true,
    List.any_eq_true, List.mem_map, List.mem_filter, beq_iff_eq]
  constructor
  · rintro (⟨x, ⟨u, ⟨hu, hrole⟩, rfl⟩, hsent⟩ | hw)
    · exact Or.inl ⟨u, hu, hrole, hsent⟩
    · exact Or.inr hw
  · rintro (⟨u, hu, hrole, hsent⟩ | hw)
    · exact Or.inl ⟨u.id, ⟨u, ⟨hu, hrole⟩, rfl⟩, hsent⟩
    · exact Or.inr hw

/-- Claim C3: for every window, clock reading, and store state — including the
storage-error fallback — the statistics satisfy
`total_alerts = closed_alerts + pending_alerts`, with the pending count
derived as total minus closed. -/
theorem get_alert_stats_consistency (db : Store) (now days : Int)
    (fault : Bool) :
    (get_alert_stats db now days fault).total_alerts =
      (get_alert_stats db now days fault).closed_alerts +
        (get_alert_stats db now days fault).pending_alerts := by
  cases fault with
  | true => rfl
  | false =>
    have h := List.length_filter_le (fun a => a.shown)
      (db.alerts.filter (inWindow now days))
    simp only [get_alert_stats, if_neg Bool.false_ne_true]
    omega

/-- Claim C4: a successful `close_alert(alert_id, user_id)` leaves every alert
carrying that id with `shown = true`, `closed_by = user_id` and `closed_at`
equal to the closing time — also when the alert was already closed, in which
case the closer and closing time are overwritten. -/
theorem close_alert_transition (db : Store) (alert_id : Nat) (user_id : String)
    (now : Int) (h : ∃ a ∈ db.alerts, a.id = alert_id) :
    (close_alert db alert_id user_id now false).2 = true ∧
      (∃ a' ∈ (close_alert db alert_id user_id now false).1.alerts,
        a'.id = alert_id) ∧
      (∀ a' ∈ (close_alert db alert_id user_id now false).1.alerts,
        a'.id = alert_id →
          a'.shown = true ∧ a'.closed_by = some user_id ∧
            a'.closed_at = some now) := by
  refine ⟨rfl, ?_, ?_⟩
  · obtain ⟨a, ha, hid⟩ := h
    refine ⟨closeUpdate alert_id user_id now a, ?_, ?_⟩
    · exact List.mem_map_of_mem _ ha
    · rw [closeUpdate_id]
      exact hid
  · intro a' ha' hid'
    have h0 : a' ∈ db.alerts.map (closeUpdate alert_id user_id now) := ha'
    obtain ⟨b, hb, rfl⟩ := List.mem_map.mp h0
    rw [closeUpdate_id] at hid'
    unfold closeUpdate
    rw [if_pos hid']
    exact ⟨rfl, rfl, rfl⟩

/-- Witness for C4: closing the already-closed alert 1 of `closeWitnessDb` as
user `u2` at time 9 succeeds and overwrites the closer and closing time. -/
theorem close_alert_transition_witness :
    (close_alert closeWitnessDb 1 "u2" 9 false).2 = true ∧
      (∃ a' ∈ (close_alert closeWitnessDb 1 "u2" 9 false).1.alerts,
        a'.id = 1) ∧
      (∀ a' ∈ (close_alert closeWitnessDb 1 "u2" 9 false).1.alerts,
        a'.id = 1 →
          a'.shown = true ∧ a'.closed_by = some "u2" ∧
            a'.closed_at = some 9) :=
  close_alert_transition closeWitnessDb 1 "u2" 9
    ⟨⟨1, "F100", "Potassium", "7.2", 0, true, some "u1", some 5⟩,
      by simp [closeWitnessDb], rfl⟩

/-- Claim C5: in every store reachable by `add_alert`/`close_alert` sequences,
each alert has `closed_by`/`closed_at` both null or both set with
`shown = true` exactly when both are set, and no store transition ever flips
an alert's `shown` from true back to false. -/
theorem reachable_alert_invariant {s : Store} (hs : Reachable s) :
    (∀ a ∈ s.alerts, AlertWf a) ∧
      (∀ s', Step s s' → ∀ a ∈ s.alerts, ∀ a' ∈ s'.alerts,
        a'.id = a.id → a.shown = true → a'.shown = true) :=
  have hwf := reachable_wf hs
  ⟨hwf.1, fun _ hstep a ha a' ha' hid hshown =>
    step_shown_monotone hwf hstep ha ha' hid hshown⟩

/-- Witness for C5: the invariant in the store reached by one `add_alert` from
the empty database. -/
theorem reachable_alert_invariant_witness :
    (∀ a ∈ (add_alert Store.empty "F100" "Potassium" "7.2" 0 false).1.alerts,
        AlertWf a) ∧
      (∀ s',
        Step (add_alert Store.empty "F100" "Potassium" "7.2" 0 false).1 s' →
        ∀ a ∈ (add_alert Store.empty "F100" "Potassium" "7.2" 0 false).1.alerts,
          ∀ a' ∈ s'.alerts,
            a'.id = a.id → a.shown = true → a'.shown = true) :=
  reachable_alert_invariant
    (Reachable.step Reachable.init
      (Step.add Store.empty "F100" "Potassium" "7.2" 0 false))

/-- Claim C7: a storage fault in any Alert Store operation is absorbed at the
boundary: the call still returns, yields the benign empty/zero/false result,
and leaves the store unchanged. -/
theorem store_fault_benign (db : Store) (page perPage : Nat)
    (showClosed : Bool) (fn tn v : String) (now : Int) (alert_id : Nat)
    (user_id : String) (days : Int) (et eu ed : String) :
    get_pending_alerts db true = [] ∧
      get_alerts db page perPage showClosed true = ([], 0) ∧
      add_alert db fn tn v now true = (db, none) ∧
      close_alert db alert_id user_id now true = (db, false) ∧
      get_alert_stats db now days true = zeroStats ∧
      log_security_event db et eu ed now true = (db, false) :=
  ⟨rfl, rfl, rfl, rfl, rfl, rfl⟩

/-- Claim C9: the `total_count` of `get_alerts(show_closed=false)` is the
number of alerts with `shown = false`, the same for every choice of `page`
and `per_page`. -/
theorem get_alerts_total_count (db : Store)
    (page perPage page' perPage' : Nat) :
    (get_alerts db page perPage false false).2 =
        (db.alerts.filter (fun a => a.shown = false)).length ∧
      (get_alerts db page perPage false false).2 =
        (get_alerts db page' perPage' false false).2 := by
  constructor
  · simp only [get_alerts, if_neg Bool.false_ne_true]
    congr 1
    apply List.filter_congr
    intro a _
    cases h : a.shown <;> simp [alertFilter, h]
  · rfl

/-- Claim C10: `close_alert` on an id no stored alert carries still returns
success, leaves every alert unchanged, and the close endpoint answers 200. -/
theorem close_alert_missing_id (db : Store) (alert_id : Nat)
    (user_id : String) (now : Int) (h : ∀ a ∈ db.alerts, a.id ≠ alert_id) :
    close_alert db alert_id user_id now false = (db, true) ∧
      mark_alert_closed db alert_id user_id now false = (db, 200) := by
  have hmap : ∀ l : List Alert, (∀ a ∈ l, a.id ≠ alert_id) →
      l.map (closeUpdate alert_id user_id now) = l := by
    intro l hl
    induction l with
    | nil => rfl
    | cons b t ih =>
      rw [List.map_cons, ih (fun a ha => hl a (List.mem_cons_of_mem b ha))]
      have hb : closeUpdate alert_id user_id now b = b := by
        unfold closeUpdate
        rw [if_neg (hl b (List.mem_cons_self b t))]
      rw [hb]
  have h1 : close_alert db alert_id user_id now false = (db, true) := by
    show ({ db with alerts := db.alerts.map (closeUpdate alert_id user_id now) },
        true) = (db, true)
    rw [hmap db.alerts h]
  refine ⟨h1, ?_⟩
  simp [mark_alert_closed, h1]

/-- Witness for C10: closing the absent id 7 of `closeWitnessDb` returns
success with an unchanged store and a 200 response. -/
theorem close_alert_missing_id_witness :
    close_alert closeWitnessDb 7 "u2" 9 false = (closeWitnessDb, true) ∧
      mark_alert_closed closeWitnessDb 7 "u2" 9 false =
        (closeWitnessDb, 200) :=
  close_alert_missing_id closeWitnessDb 7 "u2" 9 (by decide)

/-- Claim C2: `get_alerts(page, per_page, show_closed)` returns at most
`per_page` items in descending-timestamp order, taken after skipping
`(page-1)*per_page` of the sorted matching rows; with `show_closed = false`
both the items and the total are restricted to pending alerts; a page beyond
the last yields `[]` with the total still reported. -/
theorem get_alerts_pagination (db : Store) (page perPage : Nat)
    (showClosed : Bool) (hpage : 1 ≤ page) (hper : 0 < perPage) :
    (get_alerts db page perPage showClosed false).1.length ≤ perPage ∧
      (get_alerts db page perPage showClosed false).1.Pairwise
        (fun a b => b.timestamp ≤ a.timestamp) ∧
      (showClosed = false →
        (∀ a ∈ (get_alerts db page perPage showClosed false).1,
            a.shown = false) ∧
          (get_alerts db page perPage showClosed false).2 =
            (db.alerts.filter (fun a => a.shown = false)).length) ∧
      (∃ l : List Alert,
        l.Perm (db.alerts.filter (alertFilter showClosed)) ∧
          l.Pairwise (fun a b => b.timestamp ≤ a.timestamp) ∧
          (get_alerts db page perPage showClosed false).1 =
            (l.drop ((page - 1) * perPage)).take perPage) ∧
      (get_alerts db page perPage showClosed false).1.length =
        min perPage
          ((get_alerts db page perPage showClosed false).2 -
            (page - 1) * perPage) ∧
      ((get_alerts db page perPage showClosed false).2 ≤
          (page - 1) * perPage →
        (get_alerts db page perPage showClosed false).1 = []) := by
  simp only [get_alerts, if_neg Bool.false_ne_true]
  refine ⟨?_, ?_, ?_, ?_, ?_, ?_⟩
  · rw [List.length_take]
    exact Nat.min_le_left _ _
  · exact List.Pairwise.sublist
      ((List.take_sublist _ _).trans (List.drop_sublist _ _))
      (List.sorted_insertionSort tsGe _)
  · intro hsc
    subst hsc
    constructor
    · intro a ha
      have h1 : a ∈ List.insertionSort tsGe
          (db.alerts.filter (alertFilter false)) :=
        (((List.take_sublist _ _).trans (List.drop_sublist _ _)).subset) ha
      have h2 : a ∈ db.alerts.filter (alertFilter false) :=
        (List.perm_insertionSort tsGe _).subset h1
      have h3 := (List.mem_filter.mp h2).2
      simpa [alertFilter] using h3
    · congr 1
      apply List.filter_congr
      intro a _
      cases h : a.shown <;> simp [alertFilter, h]
  · exact ⟨List.insertionSort tsGe (db.alerts.filter (alertFilter showClosed)),
      List.perm_insertionSort tsGe _, List.sorted_insertionSort tsGe _, rfl⟩
  · rw [List.length_take, List.length_drop,
      List.Perm.length_eq (List.perm_insertionSort tsGe _)]
  · intro hle
    have hlen : (List.insertionSort tsGe
        (db.alerts.filter (alertFilter showClosed))).length ≤
        (page - 1) * perPage := by
      rw [List.Perm.length_eq (List.perm_insertionSort tsGe _)]
      exact hle
    rw [List.drop_eq_nil_of_le hlen, List.take_nil]

/-- If `a` is a strict timestamp maximum of `l`, the descending sort of `l`
starts with `a`. -/
theorem insertionSort_strict_max_head (l : List Alert) (a : Alert)
    (ha : a ∈ l) (hmax : ∀ b ∈ l, b ≠ a → b.timestamp < a.timestamp) :
    ∃ t, List.insertionSort tsGe l = a :: t := by
  cases hs : List.insertionSort tsGe l with
  | nil =>
    exfalso
    have hmem : a ∈ List.insertionSort tsGe l :=
      (List.perm_insertionSort tsGe l).symm.subset ha
    rw [hs] at hmem
    exact absurd hmem (List.not_mem_nil a)
  | cons c t =>
    by_cases hca : c = a
    · subst hca
      exact ⟨t, rfl⟩
    · exfalso
      have hc_mem : c ∈ l :=
        (List.perm_insertionSort tsGe l).subset
          (hs ▸ List.mem_cons_self c t)
      have hlt : c.timestamp < a.timestamp := hmax c hc_mem hca
      have ha_mem : a ∈ c :: t := by
        rw [← hs]
        exact (List.perm_insertionSort tsGe l).symm.subset ha
      have hpw : (c :: t).Pairwise tsGe := hs ▸ List.sorted_insertionSort tsGe l
      rcases List.mem_cons.mp ha_mem with hac | hat
      · exact hca (hac ▸ rfl)
      · have hle : tsGe c a := (List.pairwise_cons.mp hpw).1 a hat
        exact absurd hlt (not_lt.mpr hle)

/-- When every pending alert predates the request clock, the handler's
`get_alerts(1, 1, False)` lookup finds exactly the alert just inserted. -/
theorem find_new_alert (db : Store) (fn tn v : String) (now : Int)
    (hmax : ∀ a ∈ db.alerts, a.shown = false → a.timestamp < now) :
    ((get_alerts (add_alert db fn tn v now false).1 1 1 false false).1.find?
        (fun a => a.id == db.nextId)) =
      some ⟨db.nextId, fn, tn, v, now, false, none, none⟩ := by
  have hfilter : ((add_alert db fn tn v now false).1.alerts.filter
      (alertFilter false)) =
      db.alerts.filter (alertFilter false) ++
        [(⟨db.nextId, fn, tn, v, now, false, none, none⟩ : Alert)] := by
    show ((db.alerts ++
      [(⟨db.nextId, fn, tn, v, now, false, none, none⟩ : Alert)]).filter
        (alertFilter false)) = _
    rw [List.filter_append]
    simp [alertFilter]
  obtain ⟨t, ht⟩ := insertionSort_strict_max_head
    (db.alerts.filter (alertFilter false) ++
      [(⟨db.nextId, fn, tn, v, now, false, none, none⟩ : Alert)])
    ⟨db.nextId, fn, tn, v, now, false, none, none⟩
    (by simp)
    (by
      intro b hb hbne
      rcases List.mem_append.mp hb with h1 | h1
      · have hbp := List.mem_filter.mp h1
        have hbs : b.shown = false := by
          have := hbp.2
          simpa [alertFilter] using this
        exact hmax b hbp.1 hbs
      · rw [List.mem_singleton] at h1
        exact absurd h1 hbne)
  simp only [get_alerts, if_neg Bool.false_ne_true]
  rw [hfilter, ht]
  simp

/-- Claim C6 (amended): on a validated create request with a successful
`add_alert`, the handler answers 201 with the alert persisted; it invokes
`notify_new_alert` synchronously before that response exactly when its
`get_alerts(1, 1, False)` lookup returns the new id — in particular whenever
every pending alert predates the request clock — and the 201 outcome never
depends on the fan-out result. -/
theorem create_alert_spec (db : Store) (role fn tn v : String) (now : Int)
    (env : NotifyEnv) (gfault : Bool)
    (hrole : role = "sender" ∨ role = "admin")
    (hfn : fn ≠ "") (htn : tn ≠ "") (hv : v ≠ "") (hid : db.nextId ≠ 0) :
    (create_alert db role fn tn v now env false gfault).status = 201 ∧
      (create_alert db role fn tn v now env false gfault).store =
        (add_alert db fn tn v now false).1 ∧
      ((create_alert db role fn tn v now env false gfault).notified = true ↔
        ((get_alerts (add_alert db fn tn v now false).1 1 1 false
            gfault).1.find? (fun a => a.id == db.nextId)).isSome = true) ∧
      (∀ ad, ((get_alerts (add_alert db fn tn v now false).1 1 1 false
            gfault).1.find? (fun a => a.id == db.nextId)) = some ad →
        (create_alert db role fn tn v now env false gfault).notify_result =
          notify_new_alert env ad) ∧
      (gfault = false →
        (∀ a ∈ db.alerts, a.shown = false → a.timestamp < now) →
        (create_alert db role fn tn v now env false gfault).notified = true ∧
          (create_alert db role fn tn v now env false gfault).notify_result =
            notify_new_alert env
              ⟨db.nextId, fn, tn, v, now, false, none, none⟩) := by
  have hval : ¬(fn = "" ∨ tn = "" ∨ v = "") := by
    simp [hfn, htn, hv]
  have hsnd : (add_alert db fn tn v now false).2 = some db.nextId := rfl
  have e1 : create_alert db role fn tn v now env false gfault =
      (match (get_alerts (add_alert db fn tn v now false).1 1 1 false
          gfault).1.find? (fun a => a.id == db.nextId) with
        | some ad =>
          ⟨(add_alert db fn tn v now false).1, 201, true,
            notify_new_alert env ad⟩
        | none => ⟨(add_alert db fn tn v now false).1, 201, false, false⟩) := by
    unfold create_alert
    rw [if_neg (not_not_intro hrole), if_neg hval, hsnd]
    dsimp only
    rw [if_neg hid]
  rw [e1]
  cases hfind : (get_alerts (add_alert db fn tn v now false).1 1 1 false
      gfault).1.find? (fun a => a.id == db.nextId) with
  | some ad =>
    refine ⟨rfl, rfl, by simp, ?_, ?_⟩
    · intro ad' had'
      cases had'
      rfl
    · intro hg hmax
      subst hg
      have hfound : some (⟨db.nextId, fn, tn, v, now, false, none, none⟩ :
          Alert) = some ad :=
        (find_new_alert db fn tn v now hmax).symm.trans hfind
      cases hfound
      exact ⟨rfl, rfl⟩
  | none =>
    refine ⟨rfl, rfl, by simp, ?_, ?_⟩
    · intro ad' had'
      exact Option.noConfusion had'
    · intro hg hmax
      subst hg
      have hfound := find_new_alert db fn tn v now hmax
      rw [hfind] at hfound
      exact Option.noConfusion hfound

/-- Counterexample to C6 as stated: on `createCexDb` — one pending alert
whose timestamp 200 exceeds the request clock 100 — the create handler's
`add_alert` succeeds (id 2) and the response is still 201, yet
`notify_new_alert` is never invoked, because the `get_alerts(1, 1, False)`
lookup returns the other alert. -/
theorem create_alert_notify_skipped_cex :
    (add_alert createCexDb "F2" "T2" "V2" 100 false).2 = some 2 ∧
      (create_alert createCexDb "sender" "F2" "T2" "V2" 100 notifyCexEnv
        false false).status = 201 ∧
      (create_alert createCexDb "sender" "F2" "T2" "V2" 100 notifyCexEnv
        false false).notified = false :=
  ⟨rfl, rfl, rfl⟩

/-- Witness for C6 (amended): creating an alert in the empty store as a
sender. -/
theorem create_alert_spec_witness :
    (create_alert Store.empty "sender" "F100" "Potassium" "7.2" 0 notifyCexEnv
        false false).status = 201 ∧
      (create_alert Store.empty "sender" "F100" "Potassium" "7.2" 0
          notifyCexEnv false false).store =
        (add_alert Store.empty "F100" "Potassium" "7.2" 0 false).1 ∧
      ((create_alert Store.empty "sender" "F100" "Potassium" "7.2" 0
          notifyCexEnv false false).notified = true ↔
        ((get_alerts (add_alert Store.empty "F100" "Potassium" "7.2" 0
            false).1 1 1 false false).1.find?
          (fun a => a.id == Store.empty.nextId)).isSome = true) ∧
      (∀ ad, ((get_alerts (add_alert Store.empty "F100" "Potassium" "7.2" 0
            false).1 1 1 false false).1.find?
          (fun a => a.id == Store.empty.nextId)) = some ad →
        (create_alert Store.empty "sender" "F100" "Potassium" "7.2" 0
            notifyCexEnv false false).notify_result =
          notify_new_alert notifyCexEnv ad) ∧
      (false = false →
        (∀ a ∈ Store.empty.alerts, a.shown = false → a.timestamp < 0) →
        (create_alert Store.empty "sender" "F100" "Potassium" "7.2" 0
            notifyCexEnv false false).notified = true ∧
          (create_alert Store.empty "sender" "F100" "Potassium" "7.2" 0
              notifyCexEnv false false).notify_result =
            notify_new_alert notifyCexEnv
              ⟨Store.empty.nextId, "F100", "Potassium", "7.2", 0, false,
                none, none⟩) :=
  create_alert_spec Store.empty "sender" "F100" "Potassium" "7.2" 0
    notifyCexEnv false (Or.inl rfl) (by decide) (by decide) (by decide)
    (by decide)

/-- Claim C8 (amended): with no qualifying closed alert in the window the
average response time is 0; otherwise it is the mean response time in
minutes rounded to two decimal places. -/
theorem get_alert_stats_avg (db : Store) (now days : Int) :
    (qualifying db now days = [] →
      (get_alert_stats db now days false).avg_response_time_minutes = 0) ∧
      (qualifying db now days ≠ [] →
        (get_alert_stats db now days false).avg_response_time_minutes =
          round2 (((qualifying db now days).map respMinutes).sum /
            ((qualifying db now days).length : ℚ))) := by
  constructor
  · intro hq
    simp only [get_alert_stats, if_neg Bool.false_ne_true]
    rw [hq]
    simp [round2]
  · intro hq
    have hlen : ¬((qualifying db now days).length = 0) := fun h =>
      hq (List.length_eq_zero.mp h)
    simp only [get_alert_stats, if_neg Bool.false_ne_true, if_neg hlen]

/-- Witness for C8 (amended): the empty store yields average 0; on
`avgCexDb` the reported average is the rounded mean over its three closed
alerts. -/
theorem get_alert_stats_avg_witness :
    (qualifying Store.empty 0 0 = [] ∧
      (get_alert_stats Store.empty 0 0 false).avg_response_time_minutes
        = 0) ∧
      (qualifying avgCexDb 0 0 ≠ [] ∧
        (get_alert_stats avgCexDb 0 0 false).avg_response_time_minutes =
          round2 (((qualifying avgCexDb 0 0).map respMinutes).sum /
            ((qualifying avgCexDb 0 0).length : ℚ))) :=
  ⟨⟨rfl, (get_alert_stats_avg Store.empty 0 0).1 rfl⟩,
    ⟨by decide, (get_alert_stats_avg avgCexDb 0 0).2 (by decide)⟩⟩

/-- Counterexample to C8 as stated: on `avgCexDb` the mean response time is
1/3 minute, but `get_alert_stats` reports `round(1/3, 2) = 0.33`, which is
not the mean. -/
theorem get_alert_stats_avg_rounding_cex :
    ¬((get_alert_stats avgCexDb 0 0 false).avg_response_time_minutes =
      ((qualifying avgCexDb 0 0).map respMinutes).sum /
        ((qualifying avgCexDb 0 0).length : ℚ)) := by
  have hq : qualifying avgCexDb 0 0 = avgCexDb.alerts := rfl
  have hsum : ((qualifying avgCexDb 0 0).map respMinutes).sum = 1 := by
    rw [hq]
    simp [avgCexDb, respMinutes]
  have hlenq : ((qualifying avgCexDb 0 0).length : ℚ) = 3 := by
    rw [hq]
    norm_num [avgCexDb]
  have hne : ¬((qualifying avgCexDb 0 0).length = 0) := by
    rw [hq]
    simp [avgCexDb]
  have havg : (get_alert_stats avgCexDb 0 0 false).avg_response_time_minutes =
      round2 (((qualifying avgCexDb 0 0).map respMinutes).sum /
        ((qualifying avgCexDb 0 0).length : ℚ)) := by
    simp only [get_alert_stats, if_neg Bool.false_ne_true, if_neg hne]
  rw [havg, hsum, hlenq]
  norm_num [round2, round_eq]

/-- Witness for C2: page 2 with one item per page over the pending alerts of
`pageWitnessDb`. -/
theorem get_alerts_pagination_witness :
    1 ≤ 2 ∧ 0 < 1 ∧
      ((get_alerts pageWitnessDb 2 1 false false).1.length ≤ 1 ∧
        (get_alerts pageWitnessDb 2 1 false false).1.Pairwise
          (fun a b => b.timestamp ≤ a.timestamp) ∧
        (false = false →
          (∀ a ∈ (get_alerts pageWitnessDb 2 1 false false).1,
              a.shown = false) ∧
            (get_alerts pageWitnessDb 2 1 false false).2 =
              (pageWitnessDb.alerts.filter
                (fun a => a.shown = false)).length) ∧
        (∃ l : List Alert,
          l.Perm (pageWitnessDb.alerts.filter (alertFilter false)) ∧
            l.Pairwise (fun a b => b.timestamp ≤ a.timestamp) ∧
            (get_alerts pageWitnessDb 2 1 false false).1 =
              (l.drop ((2 - 1) * 1)).take 1) ∧
        (get_alerts pageWitnessDb 2 1 false false).1.length =
          min 1 ((get_alerts pageWitnessDb 2 1 false false).2 - (2 - 1) * 1) ∧
        ((get_alerts pageWitnessDb 2 1 false false).2 ≤ (2 - 1) * 1 →
          (get_alerts pageWitnessDb 2 1 false false).1 = [])) :=
  ⟨by decide, by decide,
    get_alerts_pagination pageWitnessDb 2 1 false (by decide) (by decide)⟩

end CraApi
